import Mathlib

/-!
Verification of the `SongIdNotifier` encoder of Xmms2MidiMaster
(src/include/SongIdNotifier.h): an encoder that converts an integer song
id into a three-byte MIDI message, with a direct-lookup override, an
additive offset fallback, 14-bit two's-complement truncation, and
configurable byte order.

The repository ships only the class header under src/; the types from
typedefs.h (MidiByte, MidiMsg, IdMap, the MIDI_STATUS_BYTE macro) and the
body of `SongIdNotifier::getMsg` are modelled from the specification, as
marked on each definition.  The setters and the command enumeration are
embedded from the header itself.
-/

/-- Modelled from the spec: `MidiByte` from the missing typedefs.h — a byte
value; data bytes are 7-bit (range [0,127]), a guarantee of the producer,
not re-checked by the encoder. -/
abbrev MidiByte := Nat

/-- Modelled from the spec: `IdMap` from the missing typedefs.h — an
associative mapping from song id (signed integer) to a pre-split pair of
7-bit data bytes. -/
abbrev IdMap := List (Int × MidiByte × MidiByte)

/-- Modelled from the spec: the read-only lookup operation of `IdMap`
(the only part of its contract the encoder consumes): given a song id,
return the found payload or "not found". -/
def IdMap.find : IdMap → Int → Option (MidiByte × MidiByte)
  | [], _ => none
  | (k, v) :: rest, i => if i = k then some v else IdMap.find rest i

/-- Modelled from the spec: `MidiMsg` from the missing typedefs.h — the
output artifact: either the semantically empty/zero sentinel ("do not
send"), or an ordered 3-byte sequence {status, data1, data2}. -/
inductive MidiMsg where
  | empty : MidiMsg
  | msg (status data1 data2 : MidiByte) : MidiMsg
deriving DecidableEq, Repr

/-- Modelled from the spec: the `MIDI_STATUS_BYTE` macro from the missing
typedefs.h — the status byte is the command's high nibble (bits 7–4)
bitwise-OR the channel (bits 3–0). -/
def MIDI_STATUS_BYTE (bCmd bChannel : Nat) : Nat :=
  (bCmd &&& 0xF0) ||| (bChannel &&& 0x0F)

/-- MIDI commands to send with this notifier
(src/include/SongIdNotifier.h, `enum ESongIdNotifierCommand`). -/
inductive ESongIdNotifierCommand where
  | ESINC_NONE
  | ESINC_NOTEOFF
  | ESINC_NOTEON
  | ESINC_PA
  | ESINC_CC
deriving DecidableEq, Repr

/-- The MIDI command codes of the enumeration items
(src/include/SongIdNotifier.h lines 44–51). -/
def ESongIdNotifierCommand.code : ESongIdNotifierCommand → Nat
  | .ESINC_NONE => 0
  | .ESINC_NOTEOFF => 0x80
  | .ESINC_NOTEON => 0x90
  | .ESINC_PA => 0xA0
  | .ESINC_CC => 0xB0

/-- The state of a `SongIdNotifier`
(src/include/SongIdNotifier.h, private fields, lines 127–132):
the referenced id map, the offset, the precomputed status byte,
and the little-endian flag. -/
structure SongIdNotifier where
  mpllId : IdMap
  dlId : Int
  rgbStatus : MidiByte
  fLE : Bool
deriving DecidableEq, Repr

/-- The constructor (src/include/SongIdNotifier.h lines 66–72):
stores the map reference, the offset and the endian flag, and packs the
command and channel into the status byte. -/
def SongIdNotifier.make (mpllId : IdMap) (dlId : Int)
    (bCmd : ESongIdNotifierCommand) (bChannel : MidiByte) (fLE : Bool) :
    SongIdNotifier :=
  { mpllId := mpllId, dlId := dlId,
    rgbStatus := MIDI_STATUS_BYTE bCmd.code bChannel, fLE := fLE }

/-- `setMidiCommand` (src/include/SongIdNotifier.h lines 93–96):
`_rgbStatus = MIDI_STATUS_BYTE( bCmd, _rgbStatus )`. -/
def SongIdNotifier.setMidiCommand (s : SongIdNotifier)
    (bCmd : ESongIdNotifierCommand) : SongIdNotifier :=
  { s with rgbStatus := MIDI_STATUS_BYTE bCmd.code s.rgbStatus }

/-- `setMidiChannel` (src/include/SongIdNotifier.h lines 103–106):
`_rgbStatus = MIDI_STATUS_BYTE( _rgbStatus, bChannel )`. -/
def SongIdNotifier.setMidiChannel (s : SongIdNotifier)
    (bChannel : MidiByte) : SongIdNotifier :=
  { s with rgbStatus := MIDI_STATUS_BYTE s.rgbStatus bChannel }

/-- `setEndian` (src/include/SongIdNotifier.h lines 113–116). -/
def SongIdNotifier.setEndian (s : SongIdNotifier) (fLE : Bool) :
    SongIdNotifier :=
  { s with fLE := fLE }

/-- `setSongIdOffset` (src/include/SongIdNotifier.h lines 121–124). -/
def SongIdNotifier.setSongIdOffset (s : SongIdNotifier) (dlId : Int) :
    SongIdNotifier :=
  { s with dlId := dlId }

/-- Modelled from the spec: the body of `SongIdNotifier::getMsg` — its
implementation file is not under src/; only its declaration and doc
comment (src/include/SongIdNotifier.h lines 74–86) are.  Per the spec
(§4.2): if the current command is None (the status byte's command nibble
is zero) return the empty message; if the map has a direct entry, use its
two pre-split bytes verbatim; otherwise add the offset, keep the low
14 bits (two's-complement truncation), split into the high 7 bits and the
low 7 bits, and place them in the two data bytes according to the endian
flag (little endian: least-significant bits in data byte 1). -/
def SongIdNotifier.getMsg (s : SongIdNotifier) (ilSongId : Int) : MidiMsg :=
  if s.rgbStatus &&& 0xF0 = 0 then MidiMsg.empty
  else
    match s.mpllId.find ilSongId with
    | some (b1, b2) => MidiMsg.msg s.rgbStatus b1 b2
    | none =>
      let adjusted : Int := ilSongId + s.dlId
      let bits : Nat := (adjusted % 16384).toNat
      let lowPart : Nat := bits % 128
      let highPart : Nat := bits / 128
      if s.fLE then MidiMsg.msg s.rgbStatus lowPart highPart
      else MidiMsg.msg s.rgbStatus highPart lowPart

/-! ### Helper lemmas -/

/-- The high nibble of a packed status byte is the command's high nibble. -/
theorem MIDI_STATUS_BYTE_and_hi (a b : Nat) :
    MIDI_STATUS_BYTE a b &&& 0xF0 = a &&& 0xF0 := by
  unfold MIDI_STATUS_BYTE
  apply Nat.eq_of_testBit_eq
  intro j
  simp only [Nat.testBit_and, Nat.testBit_or]
  rcases Nat.lt_or_ge j 8 with h | h
  · interval_cases j <;> simp [Nat.testBit]
  · have h2 : (0xF0 : Nat) < 2 ^ j :=
      lt_of_lt_of_le (by norm_num) (Nat.pow_le_pow_right (by norm_num) h)
    rw [Nat.testBit_lt_two_pow h2]
    simp

/-- The low nibble of a packed status byte is the channel's low nibble. -/
theorem MIDI_STATUS_BYTE_and_lo (a b : Nat) :
    MIDI_STATUS_BYTE a b &&& 0x0F = b &&& 0x0F := by
  unfold MIDI_STATUS_BYTE
  apply Nat.eq_of_testBit_eq
  intro j
  simp only [Nat.testBit_and, Nat.testBit_or]
  rcases Nat.lt_or_ge j 8 with h | h
  · interval_cases j <;> simp [Nat.testBit]
  · have h2 : (0x0F : Nat) < 2 ^ j :=
      lt_of_lt_of_le (by norm_num) (Nat.pow_le_pow_right (by norm_num) h)
    rw [Nat.testBit_lt_two_pow h2]
    simp

/-- Masking with 0x7F is reduction modulo 128. -/
theorem land_127_eq_mod (a : Nat) : a &&& 0x7F = a % 128 := by
  have h := Nat.and_pow_two_sub_one_eq_mod a 7
  norm_num at h
  exact h

/-- A successful `IdMap.find` returns an entry of the list. -/
theorem IdMap.find_mem {m : IdMap} {i : Int} {b1 b2 : MidiByte}
    (h : m.find i = some (b1, b2)) : (i, b1, b2) ∈ m := by
  induction m with
  | nil => simp [IdMap.find] at h
  | cons e rest ih =>
    obtain ⟨k, v1, v2⟩ := e
    rw [IdMap.find] at h
    by_cases hk : i = k
    · rw [if_pos hk] at h
      simp only [Option.some.injEq, Prod.mk.injEq] at h
      obtain ⟨h1, h2⟩ := h
      subst hk; subst h1; subst h2
      exact List.mem_cons_self ..
    · rw [if_neg hk] at h
      exact List.mem_cons_of_mem _ (ih h)

/-- On a found entry, `getMsg` emits the stored byte pair verbatim. -/
theorem getMsg_found (s : SongIdNotifier) (i : Int) (b1 b2 : MidiByte)
    (hc : s.rgbStatus &&& 0xF0 ≠ 0) (hf : s.mpllId.find i = some (b1, b2)) :
    s.getMsg i = MidiMsg.msg s.rgbStatus b1 b2 := by
  unfold SongIdNotifier.getMsg
  rw [if_neg hc, hf]

/-- On a missing entry, `getMsg` splits the 14-bit truncation of
songId + offset and orders the halves by the endian flag. -/
theorem getMsg_notFound (s : SongIdNotifier) (i : Int)
    (hc : s.rgbStatus &&& 0xF0 ≠ 0) (hf : s.mpllId.find i = none) :
    s.getMsg i =
      if s.fLE then
        MidiMsg.msg s.rgbStatus (((i + s.dlId) % 16384).toNat % 128)
          (((i + s.dlId) % 16384).toNat / 128)
      else
        MidiMsg.msg s.rgbStatus (((i + s.dlId) % 16384).toNat / 128)
          (((i + s.dlId) % 16384).toNat % 128) := by
  unfold SongIdNotifier.getMsg
  rw [if_neg hc, hf]

/-! ### Concrete states used by the witnesses -/

/-- Spec scenario: table mapping 42 to (0x10, 0x20), NoteOn on channel 0,
a nonzero offset and little-endian flag to show both are ignored. -/
def exDirect : SongIdNotifier :=
  { mpllId := [(42, 0x10, 0x20)], dlId := 7, rgbStatus := 0x90, fLE := true }

/-- Spec scenario: empty table, offset 2, ControlChange on channel 3,
big-endian. -/
def exOffset : SongIdNotifier :=
  { mpllId := [], dlId := 2, rgbStatus := 0xB3, fLE := false }

/-- Empty table, offset 0, NoteOn on channel 0, big-endian. -/
def exWrap : SongIdNotifier :=
  { mpllId := [], dlId := 0, rgbStatus := 0x90, fLE := false }

/-- Command None (status byte 0x03: empty command nibble, channel 3)
over a non-empty table with a nonzero offset. -/
def exNone : SongIdNotifier :=
  { mpllId := [(5, 1, 2)], dlId := 9, rgbStatus := 0x03, fLE := true }

/-- Table mapping 7 to the zero byte pair, NoteOff on channel 1,
nonzero offset. -/
def exZeroEntry : SongIdNotifier :=
  { mpllId := [(7, 0, 0)], dlId := 3, rgbStatus := 0x81, fLE := false }

/-! ### Claims -/

/-- Claim C1: for every song id with an entry in the table and every
offset and endian-flag setting, `getMsg` with a non-None command returns
data bytes exactly equal to the stored pair, in stored order: no offset,
no 14-bit truncation, no endian swap. -/
theorem getMsg_direct_mapping (s : SongIdNotifier) (i : Int)
    (b1 b2 : MidiByte)
    (hc : s.rgbStatus &&& 0xF0 ≠ 0) (hf : s.mpllId.find i = some (b1, b2)) :
    s.getMsg i = MidiMsg.msg s.rgbStatus b1 b2 :=
  getMsg_found s i b1 b2 hc hf

/-- Claim C1 witness: table = \x7b42 → (0x10, 0x20)\x7d, offset 7, NoteOn,
channel 0, little-endian: getMsg 42 = \x7b0x90, 0x10, 0x20\x7d. -/
theorem getMsg_direct_mapping_witness :
    exDirect.getMsg 42 = MidiMsg.msg 0x90 0x10 0x20 :=
  getMsg_direct_mapping exDirect 42 0x10 0x20 (by decide) (by decide)

/-- Claim C2: for every song id absent from the table, `getMsg` with a
non-None command keeps the low 14 bits of songId + offset, places the low
7 bits in data byte 1 and bits 13–7 in data byte 2 when little-endian,
and the reverse when big-endian. -/
theorem getMsg_offset_mapping (s : SongIdNotifier) (i : Int)
    (hc : s.rgbStatus &&& 0xF0 ≠ 0) (hf : s.mpllId.find i = none) :
    s.getMsg i =
      if s.fLE then
        MidiMsg.msg s.rgbStatus (((i + s.dlId) % 16384).toNat &&& 0x7F)
          ((((i + s.dlId) % 16384).toNat >>> 7) &&& 0x7F)
      else
        MidiMsg.msg s.rgbStatus ((((i + s.dlId) % 16384).toNat >>> 7) &&& 0x7F)
          (((i + s.dlId) % 16384).toNat &&& 0x7F) := by
  have hlt : ((i + s.dlId) % 16384).toNat < 16384 := by omega
  have hlo : ((i + s.dlId) % 16384).toNat &&& 0x7F =
      ((i + s.dlId) % 16384).toNat % 128 := land_127_eq_mod _
  have hhi : (((i + s.dlId) % 16384).toNat >>> 7) &&& 0x7F =
      ((i + s.dlId) % 16384).toNat / 128 := by
    rw [land_127_eq_mod, Nat.shiftRight_eq_div_pow]
    norm_num
    omega
  rw [getMsg_notFound s i hc hf, hlo, hhi]

/-- Claim C2 witness: the spec scenario — empty table, offset 2,
ControlChange, channel 3, big-endian: getMsg 10 = \x7b0xB3, 0x00, 0x0C\x7d. -/
theorem getMsg_offset_mapping_witness :
    exOffset.getMsg 10 = MidiMsg.msg 0xB3 0x00 0x0C :=
  (getMsg_offset_mapping exOffset 10 (by decide) (by decide)).trans (by decide)

/-- Claim C4: if the command is None (empty command nibble), `getMsg`
returns the empty message for every song id, whatever the table, offset,
channel bits and endian flag. -/
theorem getMsg_none_empty (s : SongIdNotifier) (i : Int)
    (hc : s.rgbStatus &&& 0xF0 = 0) : s.getMsg i = MidiMsg.empty := by
  unfold SongIdNotifier.getMsg
  rw [if_pos hc]

/-- Claim C4 witness: command None over a non-empty table with nonzero
offset, song id 5 (present in the table): the result is still empty. -/
theorem getMsg_none_empty_witness : exNone.getMsg 5 = MidiMsg.empty :=
  getMsg_none_empty exNone 5 (by decide)

/-- Claim C7: a table entry holding the zero byte pair is still "found":
`getMsg` with a non-None command returns data bytes (0, 0) for it,
ignoring the offset, for every offset and endian setting. -/
theorem getMsg_zero_entry_direct (s : SongIdNotifier) (i : Int)
    (hc : s.rgbStatus &&& 0xF0 ≠ 0) (hf : s.mpllId.find i = some (0, 0)) :
    s.getMsg i = MidiMsg.msg s.rgbStatus 0 0 :=
  getMsg_found s i 0 0 hc hf

/-- Claim C7 witness: table = \x7b7 → (0, 0)\x7d, offset 3, NoteOff,
channel 1: getMsg 7 = \x7b0x81, 0, 0\x7d, not the offset-path bytes for 10. -/
theorem getMsg_zero_entry_direct_witness :
    exZeroEntry.getMsg 7 = MidiMsg.msg 0x81 0 0 :=
  getMsg_zero_entry_direct exZeroEntry 7 (by decide) (by decide)

/-- Claim C8: `getMsg` is deterministic — two states agreeing on the
table contents, the offset, the status byte and the endian flag produce
identical messages for the same song id; nothing else enters the result. -/
theorem getMsg_deterministic (s t : SongIdNotifier) (i : Int)
    (h1 : s.mpllId = t.mpllId) (h2 : s.dlId = t.dlId)
    (h3 : s.rgbStatus = t.rgbStatus) (h4 : s.fLE = t.fLE) :
    s.getMsg i = t.getMsg i := by
  obtain ⟨m, d, st, f⟩ := s
  obtain ⟨m', d', st', f'⟩ := t
  cases h1; cases h2; cases h3; cases h4
  rfl

/-- Claim C8 witness: two separately built but equal configurations give
the same message bits. -/
theorem getMsg_deterministic_witness :
    exWrap.getMsg 100 =
      (SongIdNotifier.mk [] 0 0x90 false).getMsg 100 :=
  getMsg_deterministic exWrap (SongIdNotifier.mk [] 0 0x90 false) 100
    rfl rfl rfl rfl

/-- Claim C9: `getMsg` is total — every signed-integer song id is
accepted and yields either the empty sentinel or a 3-byte message headed
by the configured status byte; no error value exists. -/
theorem getMsg_total (s : SongIdNotifier) (i : Int) :
    s.getMsg i = MidiMsg.empty ∨
      ∃ d1 d2, s.getMsg i = MidiMsg.msg s.rgbStatus d1 d2 := by
  unfold SongIdNotifier.getMsg
  by_cases hc : s.rgbStatus &&& 0xF0 = 0
  · rw [if_pos hc]
    exact Or.inl rfl
  · rw [if_neg hc]
    right
    rcases hf : s.mpllId.find i with _ | ⟨b1, b2⟩
    · simp only
      by_cases hl : s.fLE
      · rw [if_pos hl]
        exact ⟨_, _, rfl⟩
      · rw [if_neg hl]
        exact ⟨_, _, rfl⟩
    · exact ⟨b1, b2, rfl⟩

/-- Masking with 0x0F is reduction modulo 16. -/
theorem land_15_eq_mod (a : Nat) : a &&& 0x0F = a % 16 := by
  have h := Nat.and_pow_two_sub_one_eq_mod a 4
  norm_num at h
  exact h

/-- Packing a freshly packed status byte's command nibble with a new
channel keeps only the original command nibble. -/
theorem MIDI_STATUS_BYTE_absorb_left (a b c : Nat) :
    MIDI_STATUS_BYTE (MIDI_STATUS_BYTE a b) c = MIDI_STATUS_BYTE a c := by
  show (MIDI_STATUS_BYTE a b &&& 0xF0) ||| (c &&& 0x0F) =
    (a &&& 0xF0) ||| (c &&& 0x0F)
  rw [MIDI_STATUS_BYTE_and_hi]

/-- Packing a command with a freshly packed status byte's channel nibble
keeps only the original channel nibble. -/
theorem MIDI_STATUS_BYTE_absorb_right (a b c : Nat) :
    MIDI_STATUS_BYTE a (MIDI_STATUS_BYTE b c) = MIDI_STATUS_BYTE a c := by
  show (a &&& 0xF0) ||| (MIDI_STATUS_BYTE b c &&& 0x0F) =
    (a &&& 0xF0) ||| (c &&& 0x0F)
  rw [MIDI_STATUS_BYTE_and_lo]

/-- Claim C3: on the offset path, adjusted values wrap modulo 2^14 by
two's-complement truncation: songId + offset = −1 gives data bytes
0x7F, 0x7F, and any two adjusted values congruent mod 16384 give
identical messages (so 16384 behaves as 0). -/
theorem getMsg_mod_two_pow_14 :
    (∀ (s : SongIdNotifier) (i : Int), s.rgbStatus &&& 0xF0 ≠ 0 →
      s.mpllId.find i = none → i + s.dlId = -1 →
      s.getMsg i = MidiMsg.msg s.rgbStatus 0x7F 0x7F) ∧
    (∀ (s : SongIdNotifier) (i j : Int), s.rgbStatus &&& 0xF0 ≠ 0 →
      s.mpllId.find i = none → s.mpllId.find j = none →
      (i + s.dlId) % 16384 = (j + s.dlId) % 16384 →
      s.getMsg i = s.getMsg j) := by
  constructor
  · intro s i hc hf hadj
    have h1 : ((-1 : Int) % 16384).toNat = 16383 := by decide
    rw [getMsg_notFound s i hc hf, hadj, h1]
    cases s.fLE <;> norm_num
  · intro s i j hc hfi hfj hmod
    rw [getMsg_notFound s i hc hfi, getMsg_notFound s j hc hfj, hmod]

/-- Claim C3 witness: with an empty table, offset 0, NoteOn, channel 0:
getMsg (−1) has data bytes 0x7F 0x7F, and getMsg 16384 = getMsg 0. -/
theorem getMsg_mod_two_pow_14_witness :
    exWrap.getMsg (-1) = MidiMsg.msg 0x90 0x7F 0x7F ∧
    exWrap.getMsg 16384 = exWrap.getMsg 0 :=
  ⟨getMsg_mod_two_pow_14.1 exWrap (-1) (by decide) (by decide) (by decide),
   getMsg_mod_two_pow_14.2 exWrap 16384 0 (by decide) (by decide)
     (by decide) (by decide)⟩

/-- Claim C5: `setMidiCommand` preserves the channel nibble,
`setMidiChannel` preserves the command nibble, the two setters commute,
and NoteOn with channel 5 yields status byte 0x95 in either order. -/
theorem statusByte_setters (s : SongIdNotifier) (c : ESongIdNotifierCommand)
    (ch : MidiByte) :
    ((s.setMidiCommand c).rgbStatus &&& 0x0F = s.rgbStatus &&& 0x0F) ∧
    ((s.setMidiChannel ch).rgbStatus &&& 0xF0 = s.rgbStatus &&& 0xF0) ∧
    ((s.setMidiCommand c).setMidiChannel ch =
      (s.setMidiChannel ch).setMidiCommand c) ∧
    (((s.setMidiCommand ESongIdNotifierCommand.ESINC_NOTEON).setMidiChannel
        5).rgbStatus = 0x95 ∧
      ((s.setMidiChannel 5).setMidiCommand
        ESongIdNotifierCommand.ESINC_NOTEON).rgbStatus = 0x95) := by
  refine ⟨MIDI_STATUS_BYTE_and_lo .., MIDI_STATUS_BYTE_and_hi .., ?_, ?_, ?_⟩
  · simp only [SongIdNotifier.setMidiCommand, SongIdNotifier.setMidiChannel]
    congr 1
    rw [MIDI_STATUS_BYTE_absorb_left, MIDI_STATUS_BYTE_absorb_right]
  · show MIDI_STATUS_BYTE
      (MIDI_STATUS_BYTE ESongIdNotifierCommand.ESINC_NOTEON.code s.rgbStatus)
      5 = 0x95
    rw [MIDI_STATUS_BYTE_absorb_left]
    decide
  · show MIDI_STATUS_BYTE ESongIdNotifierCommand.ESINC_NOTEON.code
      (MIDI_STATUS_BYTE s.rgbStatus 5) = 0x95
    rw [MIDI_STATUS_BYTE_absorb_right]
    decide

/-- Claim C6: every non-empty message satisfies the MIDI shape invariant:
command nibble in \x7b0x80, 0x90, 0xA0, 0xB0\x7d, channel nibble equal to the
configured channel (in [0,15]), and both data bytes in [0,127], under the
precondition that table entries hold valid 7-bit bytes. -/
theorem getMsg_shape_invariant (s : SongIdNotifier) (i : Int)
    (c : ESongIdNotifierCommand) (ch : Nat)
    (hcmd : c ≠ ESongIdNotifierCommand.ESINC_NONE) (hch : ch < 16)
    (hst : s.rgbStatus = MIDI_STATUS_BYTE c.code ch)
    (htab : ∀ e ∈ s.mpllId, e.2.1 < 128 ∧ e.2.2 < 128)
    (st d1 d2 : Nat) (hmsg : s.getMsg i = MidiMsg.msg st d1 d2) :
    (st &&& 0xF0 = 0x80 ∨ st &&& 0xF0 = 0x90 ∨
      st &&& 0xF0 = 0xA0 ∨ st &&& 0xF0 = 0xB0) ∧
    st &&& 0x0F = ch ∧ d1 < 128 ∧ d2 < 128 := by
  have hhi : s.rgbStatus &&& 0xF0 = c.code := by
    rw [hst, MIDI_STATUS_BYTE_and_hi]
    cases c
    · exact absurd rfl hcmd
    all_goals decide
  have hc : s.rgbStatus &&& 0xF0 ≠ 0 := by
    rw [hhi]
    cases c
    · exact absurd rfl hcmd
    all_goals decide
  have hmain : st = s.rgbStatus ∧ d1 < 128 ∧ d2 < 128 := by
    rcases hf : s.mpllId.find i with _ | ⟨b1, b2⟩
    · rw [getMsg_notFound s i hc hf] at hmsg
      have hbits : ((i + s.dlId) % 16384).toNat < 16384 := by omega
      by_cases hL : s.fLE
      · rw [if_pos hL] at hmsg
        injection hmsg with h1 h2 h3
        unfold MidiByte at h2 h3
        exact ⟨h1.symm, by omega, by omega⟩
      · rw [if_neg hL] at hmsg
        injection hmsg with h1 h2 h3
        unfold MidiByte at h2 h3
        exact ⟨h1.symm, by omega, by omega⟩
    · rw [getMsg_found s i b1 b2 hc hf] at hmsg
      injection hmsg with h1 h2 h3
      have hb := htab (i, b1, b2) (IdMap.find_mem hf)
      exact ⟨h1.symm, h2 ▸ hb.1, h3 ▸ hb.2⟩
  obtain ⟨hsteq, hd1, hd2⟩ := hmain
  subst hsteq
  refine ⟨?_, ?_, hd1, hd2⟩
  · rw [hhi]
    cases c
    · exact absurd rfl hcmd
    all_goals decide
  · rw [hst, MIDI_STATUS_BYTE_and_lo, land_15_eq_mod]
    omega

/-- Claim C6 witness: the direct-mapping scenario (NoteOn, channel 0,
table entry (0x10, 0x20)) satisfies the shape invariant. -/
theorem getMsg_shape_invariant_witness :
    ((0x90 : Nat) &&& 0xF0 = 0x80 ∨ (0x90 : Nat) &&& 0xF0 = 0x90 ∨
      (0x90 : Nat) &&& 0xF0 = 0xA0 ∨ (0x90 : Nat) &&& 0xF0 = 0xB0) ∧
    (0x90 : Nat) &&& 0x0F = 0 ∧ (0x10 : Nat) < 128 ∧ (0x20 : Nat) < 128 :=
  getMsg_shape_invariant exDirect 42 ESongIdNotifierCommand.ESINC_NOTEON 0
    (by decide) (by decide) (by decide) (by decide) 0x90 0x10 0x20 (by decide)

/-- Claim C10: each mutator rewrites exactly its targeted field:
`setSongIdOffset` only the offset, `setEndian` only the endian flag,
`setMidiCommand` and `setMidiChannel` only the status byte; the table
reference, in particular, is never replaced. -/
theorem setters_frame :
    (∀ (s : SongIdNotifier) (d : Int),
      (s.setSongIdOffset d).mpllId = s.mpllId ∧
      (s.setSongIdOffset d).rgbStatus = s.rgbStatus ∧
      (s.setSongIdOffset d).fLE = s.fLE ∧
      (s.setSongIdOffset d).dlId = d) ∧
    (∀ (s : SongIdNotifier) (f : Bool),
      (s.setEndian f).mpllId = s.mpllId ∧
      (s.setEndian f).dlId = s.dlId ∧
      (s.setEndian f).rgbStatus = s.rgbStatus ∧
      (s.setEndian f).fLE = f) ∧
    (∀ (s : SongIdNotifier) (c : ESongIdNotifierCommand),
      (s.setMidiCommand c).mpllId = s.mpllId ∧
      (s.setMidiCommand c).dlId = s.dlId ∧
      (s.setMidiCommand c).fLE = s.fLE) ∧
    (∀ (s : SongIdNotifier) (ch : MidiByte),
      (s.setMidiChannel ch).mpllId = s.mpllId ∧
      (s.setMidiChannel ch).dlId = s.dlId ∧
      (s.setMidiChannel ch).fLE = s.fLE) :=
  ⟨fun _ _ => ⟨rfl, rfl, rfl, rfl⟩, fun _ _ => ⟨rfl, rfl, rfl, rfl⟩,
   fun _ _ => ⟨rfl, rfl, rfl⟩, fun _ _ => ⟨rfl, rfl, rfl⟩⟩
